import Mathlib

/-!
Shallow embedding of the ChatBot-Image backend (src/backend/app) and proofs
about its hybrid response gateway.  Python dictionaries holding heterogeneous
values are modelled by the inductive type `Val`; Python truthiness by
`Val.truthy`.  External effects (the Gemini HTTP calls, PIL, the local vision
models, base64, uuid, wall-clock time) are passed in as explicit oracle
arguments, so every repository function becomes a total computable Lean
function of its inputs and oracles.
-/

set_option maxHeartbeats 1000000

/-- A Python value as stored in the vision-context dictionaries. -/
inductive Val where
  | vstr (s : String)
  | vnat (n : Nat)
  | vlist (l : List Val)
  | vdict (d : List (String × Val))

/-- Python truthiness of a `Val` (`bool(v)`). -/
def Val.truthy : Val → Bool
  | .vstr s => !s.isEmpty
  | .vnat n => n != 0
  | .vlist l => !l.isEmpty
  | .vdict d => !d.isEmpty

/-- A Python dict with string keys, in insertion order (keys unique in practice). -/
abbrev PyDict := List (String × Val)

/-- `d.get(k)` / `d[k]` on a Python dict (first matching key). -/
def dictLookup (d : PyDict) (k : String) : Option Val :=
  (d.find? (fun p => p.1 = k)).map Prod.snd

/-- Whether `pat` is a prefix of `s` (on character lists, so that it reduces
inside the kernel). -/
def prefixMatch : List Char → List Char → Bool
  | [], _ => true
  | _ :: _, [] => false
  | a :: as, b :: bs => a == b && prefixMatch as bs

/-- Whether `pat` occurs as a contiguous sublist of `s`. -/
def containsSub (pat : List Char) : List Char → Bool
  | [] => pat.isEmpty
  | s@(_ :: rest) => prefixMatch pat s || containsSub pat rest

/-- Python `pat in s` substring test (embedding of the `in` operator on str). -/
def strContains (s pat : String) : Bool :=
  containsSub pat.data s.data

/-- Python `str.lower()` (on character lists, so that it reduces inside the
kernel; the repository only ever lowers ASCII text). -/
def pyLower (s : String) : String :=
  String.mk (s.data.map Char.toLower)

/-- The bare empty-context marker the reasoner looks for in the system
instruction (the two-character string holding an opening and a closing brace). -/
def emptyMarker : String := "\x7b\x7d"

/-- Minimal JSON string escaping used by `json.dumps`. -/
def jsonEscape (s : String) : String :=
  ((s.replace "\\" "\\\\").replace "\"" "\\\"").replace "\n" "\\n"

/-- `n` spaces, for `json.dumps(..., indent=2)` padding. -/
def pad (n : Nat) : String := String.mk (List.replicate n ' ')

mutual
/-- `json.dumps(v, indent=2)` rendered at indentation level `ind`. -/
def Val.dumps : Nat → Val → String
  | _, .vstr s => "\"" ++ jsonEscape s ++ "\""
  | _, .vnat n => toString n
  | ind, .vlist l =>
    if l.isEmpty then "[]"
    else "[\n" ++ dumpsListItems (ind + 2) l ++ "\n" ++ pad ind ++ "]"
  | ind, .vdict d =>
    if d.isEmpty then emptyMarker
    else "\x7b\n" ++ dumpsDictItems (ind + 2) d ++ "\n" ++ pad ind ++ "\x7d"

/-- Comma-separated list items for `Val.dumps`. -/
def dumpsListItems : Nat → List Val → String
  | _, [] => ""
  | ind, [v] => pad ind ++ Val.dumps ind v
  | ind, v :: rest => pad ind ++ Val.dumps ind v ++ ",\n" ++ dumpsListItems ind rest

/-- Comma-separated dict items for `Val.dumps`. -/
def dumpsDictItems : Nat → List (String × Val) → String
  | _, [] => ""
  | ind, [(k, v)] => pad ind ++ "\"" ++ jsonEscape k ++ "\": " ++ Val.dumps ind v
  | ind, (k, v) :: rest =>
    pad ind ++ "\"" ++ jsonEscape k ++ "\": " ++ Val.dumps ind v ++ ",\n" ++
      dumpsDictItems ind rest
end

/-! ## services/memory.py — MemoryLayer -/

/-- One history entry: `{role: ..., content: ...}`. -/
structure Turn where
  role : String
  content : String
deriving DecidableEq, Repr

/-- Per-session record held by `MemoryLayer._store`. -/
structure SessionData where
  history : List Turn
  vision_context : PyDict

/-- The empty session record created on first reference. -/
def emptySession : SessionData := { history := [], vision_context := [] }

/-- `MemoryLayer._store`: session id to session record. -/
def Store := String → Option SessionData

/-- A fresh `MemoryLayer` (empty `_store`). -/
def emptyStore : Store := fun _ => none

/-- `MemoryLayer.set_vision_context`. -/
def set_vision_context (st : Store) (session_id : String) (vision_data : PyDict) : Store :=
  fun k =>
    if k = session_id then
      some { (st session_id).getD emptySession with vision_context := vision_data }
    else st k

/-- `MemoryLayer.add_interaction`: appends the user turn then the assistant turn. -/
def add_interaction (st : Store) (session_id user_query system_response : String) : Store :=
  fun k =>
    if k = session_id then
      let cur := (st session_id).getD emptySession
      some { cur with history :=
        cur.history ++ [⟨"user", user_query⟩, ⟨"assistant", system_response⟩] }
    else st k

/-- The bundle returned by `MemoryLayer.get_context`. -/
structure ContextBundle where
  conversation_history : List Turn
  persistent_vision : PyDict

/-- `MemoryLayer.get_context`. -/
def get_context (st : Store) (session_id : String) : ContextBundle :=
  let sd := (st session_id).getD emptySession
  { conversation_history := sd.history, persistent_vision := sd.vision_context }

/-! ## services/validation.py — RequestValidationLayer -/

/-- Raw image bytes (content opaque; only the length is inspected). -/
abbrev Bytes := List Nat

/-- The multipart upload: content type plus payload. -/
structure UploadImage where
  content_type : String
  data : Bytes
deriving DecidableEq, Repr

/-- `RequestValidationLayer.ALLOWED_IMAGE_TYPES`. -/
def ALLOWED_IMAGE_TYPES : List String :=
  ["image/jpeg", "image/jpg", "image/png", "image/webp"]

/-- `RequestValidationLayer.MAX_FILE_SIZE` (10 MB). -/
def MAX_FILE_SIZE : Nat := 10 * 1024 * 1024

/-- A fault escaping the gateway body; the outer handler of `chat_endpoint`
re-raises every one of them as an HTTP 500 (`toHttpError`). -/
inductive Fault where
  | validationError (status : Nat) (detail : String)
  | processingError (detail : String)
deriving DecidableEq, Repr

/-- chat.py lines 144-147: any uncaught exception becomes `HTTPException(500, str(e))`. -/
def toHttpError : Fault → Nat × String
  | .validationError _ d => (500, d)
  | .processingError d => (500, d)

/-- `RequestValidationLayer.validate_image`. -/
def validate_image (file : UploadImage) : Except Fault Bytes :=
  if ¬ ALLOWED_IMAGE_TYPES.contains file.content_type then
    .error (.validationError 400
      ("Invalid file type. Allowed: " ++ String.intercalate ", " ALLOWED_IMAGE_TYPES))
  else if file.data.length > MAX_FILE_SIZE then
    .error (.validationError 400 "File too large. Max size: 10.0MB")
  else if file.data.length = 0 then
    .error (.validationError 400 "Empty file uploaded")
  else .ok file.data

/-- `RequestValidationLayer.sanitize_text`: strip, cap at 2000 chars, drop NUL bytes. -/
def sanitize_text (text : String) : String :=
  if text = "" then ""
  else
    let t := text.trim
    let t := if t.length > 2000 then t.take 2000 else t
    t.replace "\x00" ""

/-- `RequestValidationLayer.get_or_create_session_id`; `fresh` stands for `uuid.uuid4()`. -/
def get_or_create_session_id (session_id : Option String) (fresh : String) : String :=
  match session_id with
  | some s => if s.length > 0 then s else fresh
  | none => fresh

/-! ## services/vision.py — preprocessing and VisionProcessingLayer -/

/-- A decoded PIL image (only the attributes the code reads). -/
structure PILImage where
  width : Nat
  height : Nat
  mode : String
deriving DecidableEq, Repr

/-- `ImagePreProcessingLayer.process`; `pilOpen` is the `PIL.Image.open` oracle.
Any failure is re-raised as `ValueError("Image processing failed: ...")`.
(The LANCZOS resize is size arithmetic only; the float ratio is modelled by
Nat division, which is irrelevant to every claim.) -/
def process (pilOpen : Bytes → Except String PILImage) (image_data : Bytes) :
    Except String PILImage :=
  match pilOpen image_data with
  | .error e => .error ("Image processing failed: " ++ e)
  | .ok img =>
    let img := if img.mode ≠ "RGB" then { img with mode := "RGB" } else img
    let m := max img.width img.height
    if m > 1200 then
      .ok { img with width := img.width * 1200 / m, height := img.height * 1200 / m }
    else .ok img

/-- `VisionProcessingLayer.analyze`: the underlying `LocalVisionEngine.analyze_image`
outcome is passed in as `engineResult` (`.error e` models the pipeline raising
an exception with message `e`); on failure the failsafe context is returned
instead of raising. -/
def analyze (engineResult : Except String PyDict) : PyDict :=
  match engineResult with
  | .ok v => v
  | .error e =>
    [("analysis_mode", .vstr "Offline Local AI (Failsafe)"),
     ("scene_description", .vstr "Scene analysis unavailable."),
     ("detected_objects", .vdict []),
     ("text_detected", .vlist [.vstr "Error during local processing"]),
     ("confidence_note", .vstr ("Failsafe mode triggered: " ++ e))]

/-! ## services/llm.py — VisionLanguageFusionLayer (Prompt Composer) -/

/-- One entry of the `mode_rules` table (`structure` renamed `outputStructure`
because `structure` is a Lean keyword). -/
structure ModeConfig where
  intent : String
  tone : String
  rules : List String
  outputStructure : String

/-- The `mode_rules` table of `VisionLanguageFusionLayer.construct_prompt`,
in source order. -/
def mode_rules : List (String × ModeConfig) :=
  [("MODE 1: STORYTELLING",
    { intent := "Weave a compelling, character-driven narrative where the connections and relationships between visual elements form the heart of the journey.",
      tone := "Evocative, literary, and immersive.",
      rules :=
        ["ABSOLUTE RULE: No technical jargon or analysis (do not say \x27I detect\x27 or \x27detected objects\x27)",
         "Transform the \x27detected_objects\x27 into a connected cast—every character must have a relationship with another object or character in the scene",
         "The narrative must weave these elements together, explaining why they are in the same frame and how they interact",
         "Use spatial cues (which objects are near each other) to determine which characters are allies, enemies, or destined for a shared fate",
         "Use the \x27scene_description\x27 to establish atmospheric sensory details (lighting, weather, mood)",
         "MANDATORY: The \x27Key Metrics\x27 section must evaluate \x27Narrative Potential\x27 and \x27Character Diversity\x27 based on the visual elements.",
         "MANDATORY: The \x27Key Points\x27 section must highlight the \x27Climax Element\x27 and \x27Emotional Anchor\x27 of the image.",
         "MANDATORY: The \x27Interconnected Journey\x27 section MUST be written as a deep, multi-paragraph narrative containing AT LEAST 3 detailed paragraphs and at least 1000 characters of descriptive text.",
         "The \x27Moral\x27 must be an insightful reflection of the balance or tension between the visual elements"],
      outputStructure := "Title\nSetting (The World)\nCharacters (The Souls of the Scene)\nThe Narrative (Interconnected Journey)\nKey Metrics (Creative Output)\nKey Points (Focal Hubs)\nCore Theme\nMoral of the Story" }),
   ("MODE 2: CHART INTERPRETATION",
    { intent := "Objectively interpret charts or graphs using detected OCR values and spatial relationships.",
      tone := "Neutral, analytical.",
      rules :=
        ["No storytelling",
         "No assumptions outside the provided OCR text and labels",
         "Explicitly reference detected values and axis labels in the findings",
         "State uncertainty if labels or values are unclear",
         "MANDATORY: The \x27Key Metrics\x27 section must include \x27Data Density Score\x27 and \x27Volatility Index\x27 based on the graph\x27s visual complexity.",
         "MANDATORY: The \x27Key Points\x27 section must list the \x27Maximum Data Peak\x27 and \x27Inflection Points\x27 found in the visual data.",
         "MANDATORY: Include a \x27Categorical Breakdown\x27 section that lists every identified label and its corresponding visual area.",
         "MANDATORY: Include a \x27Key Statistical Features\x27 section summarizing trends, outliers, and average distributions inferred from the visual layout."],
      outputStructure := "Chart Type\nVariables Identified\nKey Metrics (Statistical Overview)\nKey Points (Data Anomalies)\nCategorical Breakdown (Visual Labels)\nKey Statistical Features (Detailed Analysis)\nTrends and Patterns\nNotable Comparisons\nData-Supported Insight" }),
   ("MODE 3: GENERAL IMAGE ANALYSIS",
    { intent := "Explain what the image represents, its purpose, and its primary semantic elements.",
      tone := "Descriptive, objective.",
      rules :=
        ["No storytelling",
         "No emotional language",
         "Summarize all key detected entities and their spatial context in AT LEAST 3 comprehensive paragraphs",
         "Explain the likely real-world purpose based on visible clues in great detail",
         "MANDATORY: The \x27Key Metrics\x27 section must include \x27Spatial Balance\x27 and \x27Object Density\x27.",
         "MANDATORY: The \x27Key Points\x27 section must identify the \x27Primary Subject\x27 and \x27Background Context\x27 nodes."],
      outputStructure := "Image Overview\nPrimary Elements\nKey Metrics (Visual Statistics)\nKey Points (Visual Anchors)\nContext or Purpose\nImportant Details\nConcise Summary" }),
   ("MODE 4: LEARNING / DIAGRAM EXPLANATION",
    { intent := "Explain diagrams, workflows, or systems using detected labels and logical connections.",
      tone := "Instructional, structured, technical.",
      rules :=
        ["Numbered steps only",
         "No narrative or morals",
         "Trace the flow using detected arrows or spatial sequence",
         "Define each technical label found in the OCR data",
         "MANDATORY: The \x27Key Metrics\x27 section must evaluate \x27Logic Path Complexity\x27 and \x27Node Density\x27.",
         "MANDATORY: The \x27Key Points\x27 section must define \x27Entry Points\x27 and \x27Critical Decision Hubs\x27."],
      outputStructure := "Diagram Type\nComponents Identified\nKey Metrics (System Complexity)\nKey Points (Logical Nodes)\nStep-by-Step Explanation\nProcess or Data Flow\nSimple Use Case" }),
   ("MODE 5: SECURITY & STRUCTURAL AUDIT",
    { intent := "Conduct a high-precision forensic audit of an image to identify structural weaknesses, safety hazards, or security vulnerabilities.",
      tone := "Formal, vigilant, precise.",
      rules :=
        ["STRICT PROTOCOL: Prioritize identifying visual \x27anomalies\x27 or \x27deterioration\x27 based on scene context",
         "Identify every detected object as either a \x27Secure Asset\x27 or a \x27Potential Risk Factor\x27",
         "Analyze the spatial logic for \x27Unauthorized Entry Points\x27 or \x27Safety Clearance Infractions\x27",
         "MANDATORY: The \x27Key Metrics\x27 section must include a \x27Threat Index\x27 and \x27Structural Integrity Score\x27",
         "MANDATORY: The \x27Key Points\x27 section must list \x27Primary Hazards\x27 and \x27Critical Vulnerabilities\x27",
         "MANDATORY: Include a \x27Forensic Audit Log\x27 section that stamps every observation with a severity level (LOW, MEDIUM, CRITICAL)"],
      outputStructure := "Audit Summary\nEnvironmental Risk Factors\nKey Metrics (Vulnerability Assessment)\nKey Points (Security Anchors)\nForensic Audit Log (Step-by-Step Findings)\nConclusion and Recommendation" }),
   ("MODE 6: ARCHITECTURAL & INTERIOR DESIGN",
    { intent := "Analyze spaces for design harmony, spatial efficiency, material quality, and lighting dynamics.",
      tone := "Sophisticated, artistic, structured.",
      rules :=
        ["Focus on the \x27Rhythm\x27 and \x27Balance\x27 of the visual elements",
         "Identify materials (wood, steel, glass) and describe their interaction with light",
         "Evaluate spatial flow and ergonomic logic based on object positioning",
         "MANDATORY: The \x27Key Metrics\x27 section must include \x27Aesthetic Harmony Score\x27 and \x27Spatial Volume Index\x27",
         "MANDATORY: The \x27Key Points\x27 section must highlight \x27Focal Design Hubs\x27 and \x27Material Intersections\x27",
         "MANDATORY: Include a \x27Design Critique\x27 section summarizing the visual impact of color palettes and textures"],
      outputStructure := "Design Intent\nSpatial Elements\nKey Metrics (Aesthetic Audit)\nKey Points (Design Anchors)\nMaterial & Lighting Analysis\nDesign Critique\nFinal Professional Recommendation" }),
   ("MODE 7: MEDICAL / ANATOMICAL VISUALIZER",
    { intent := "Explain biological structures or anatomical diagrams for educational and reference purposes.",
      tone := "Clinical, educational, objective.",
      rules :=
        ["DISCLAIMER: Always start with a note that this is for educational purposes only and not medical advice",
         "Label every visible biological structure with precision using detected OCR and visual cues",
         "Explain the \x27Function\x27 of identified components within the system",
         "MANDATORY: The \x27Key Metrics\x27 section must evaluate \x27Structural Complexity\x27 and \x27Systemic Integration\x27",
         "MANDATORY: The \x27Key Points\x27 section must define \x27Critical Biological Nodes\x27 and \x27Flow Pathways\x27",
         "MANDATORY: Include an \x27Educational Glossary\x27 defining complex terms found in the image"],
      outputStructure := "Biological Context\nSystem Overview\nKey Metrics (Complexity Assessment)\nKey Points (Anatomical Anchors)\nStructural Connectivity\nEducational Glossary\nLearning Objective Summary" })]

/-- `"\n".join("- " + r for r in config["rules"])`. -/
def bulletRules (rules : List String) : String :=
  String.intercalate "\n" (rules.map (fun r => "- " ++ r))

/-- The system-instruction f-string of `construct_prompt` (lines 144-174). -/
def systemInstructionFor (selected_mode : String) (config : ModeConfig)
    (vision_context_str : String) : String :=
  "You are a Visual Intelligence Assistant operating in a STRICT MODE-LOCKED SYSTEM.\nYour primary goal is to be highly responsive to the USER\x27S RUNTIME INPUT.\n\n--------------------------------------------------\nACTIVE MODE: "
    ++ selected_mode
    ++ "\n--------------------------------------------------\nIntent: "
    ++ config.intent
    ++ "\nTone: "
    ++ config.tone
    ++ "\n\nBehavior Rules:\n"
    ++ bulletRules config.rules
    ++ "\n- DYNAMIC RESPONSE RULE: If the user asks a specific question (e.g., \x27What color is the car?\x27, \x27Is there a cat?\x27), prioritize answering that question DIRECTLY and IMMEDIATELY in the first paragraph.\n- After addressing the runtime query, transition into the mode-specific analysis if appropriate.\n- For short, specific queries, you do not need to follow the full Output Structure below if it would feel forced. Focus on accuracy and relevance.\n\nOutput Structure (MANDATORY for initial/general analysis):\n"
    ++ config.outputStructure
    ++ "\n\nSTRICT SESSION FLOW RULES:\n- PRIORITIZE THE LATEST USER QUERY: Every response must revolve around what the user just asked.\n- ROI PROCESSING RULE: If the query contains \x27[ROI: x1, y1, x2, y2]\x27, these are normalized coordinates (0 to 1) for a specific region of interest. Focus your visual reasoning HEAVILY on the objects and details within this bounding box.\n- Operate ONLY in the active mode for EVERY response in this session.\n- This is a continuous reasoning session. Maintain context from previous turns.\n- Ground every answer in the INTERNAL IMAGE DATA provided below.\n- Never switch modes or reuse formats from other modes.\n- Do not hallucinate unseen information.\n- If the runtime input is unrelated to the image, politely remind the user that you are analyzing the provided visual context.\n\nINTERNAL IMAGE DATA (YOUR EYES):\n"
    ++ vision_context_str
    ++ "\n"

/-- One Gemini message: `{role, parts: [{text}]}` with its single part flattened. -/
structure GMsg where
  role : String
  text : String
deriving DecidableEq, Repr

/-- The structured prompt payload handed to the Remote Reasoner
(`system_instruction.parts[0].text` flattened to a string). -/
structure PromptData where
  system_instruction : String
  contents : List GMsg

/-- Result of `construct_prompt`: in Python either one of the two sentinel
strings `"BEHAVIOR_SELECT_MODE"` / `"BEHAVIOR_UPLOAD_IMAGE"` or a payload dict. -/
inductive PromptResult where
  | selectMode
  | uploadImage
  | payload (p : PromptData)

/-- `not mode or mode == "NONE"` for the `Optional[str]` mode argument. -/
def isUnsetMode : Option String → Bool
  | none => true
  | some s => s = "" || s = "NONE"

/-- The third precondition check of `construct_prompt`:
`"scene_description" not in pv or not pv.get("scene_description")`. -/
def sceneMissing (pv : PyDict) : Bool :=
  match dictLookup pv "scene_description" with
  | none => true
  | some v => !v.truthy

/-- `role = "user" if turn["role"] == "user" else "model"`. -/
def roleFor (r : String) : String := if r = "user" then "user" else "model"

/-- The `contents` list: every history turn, then the current query as final user message. -/
def contentsFor (conversation_history : List Turn) (user_query : String) : List GMsg :=
  conversation_history.map (fun t => { role := roleFor t.role, text := t.content })
    ++ [{ role := "user", text := user_query }]

/-- `VisionLanguageFusionLayer.construct_prompt`. -/
def construct_prompt (persistent_vision : PyDict) (conversation_history : List Turn)
    (user_query : String) (mode : Option String) : PromptResult :=
  if isUnsetMode mode then .selectMode
  else if persistent_vision.isEmpty || persistent_vision.all (fun kv => !kv.2.truthy) then
    .uploadImage
  else if sceneMissing persistent_vision then .uploadImage
  else
    let m := mode.getD ""
    let vision_context_str := Val.dumps 0 (.vdict persistent_vision)
    let selected_mode := if (mode_rules.lookup m).isSome then m
      else "MODE 3: GENERAL IMAGE ANALYSIS"
    let config := (mode_rules.lookup selected_mode).getD
      { intent := "", tone := "", rules := [], outputStructure := "" }
    .payload
      { system_instruction := systemInstructionFor selected_mode config vision_context_str,
        contents := contentsFor conversation_history user_query }

/-! ## services/llm.py — ConversationalReasoningLayer (Remote Reasoner) -/

/-- Outcome of one `httpx` POST to a candidate model: a transport error or
raised exception while reading the body (`fail`), or a parsed response with
its status code and the list of candidate answer texts found in the body. -/
inductive ApiOutcome where
  | fail (msg : String)
  | response (status : Nat) (candidates : List String)
deriving DecidableEq, Repr

/-- `models_to_try` — the fixed priority order of candidate models. -/
def modelsToTry : List String := ["gemini-1.5-flash", "gemini-1.5-pro"]

/-- The candidate loop of `generate_response`: first model whose response has
status 200 and a non-empty candidate list wins and its first answer is
trimmed; otherwise `last_error` is updated and the next model is tried. -/
def tryModels (net : String → ApiOutcome) : List String → String → Except String String
  | [], last_error => .error ("All models failed: " ++ last_error)
  | m :: rest, _last_error =>
    match net m with
    | .response s cands =>
      if s = 200 then
        match cands with
        | t :: _ => .ok t.trim
        | [] => tryModels net rest (toString s)
      else tryModels net rest (toString s)
    | .fail e => tryModels net rest e

/-- `ConversationalReasoningLayer.generate_response`; `apiKey` is the
environment-sourced `GEMINI_API_KEY`, `net` the HTTP oracle.  Raising
`ConnectionError` is modelled by `.error`. -/
def generate_response (apiKey : String) (prompt_data : PromptData)
    (net : String → ApiOutcome) : Except String String :=
  if apiKey = "" then .error "GEMINI_API_KEY is missing"
  else if strContains prompt_data.system_instruction emptyMarker
      ∧ prompt_data.contents.length ≤ 1 then
    .ok "initial_state"
  else tryModels net modelsToTry ""

/-! ## services/llm.py — LocalResponseLayer (Local Fallback Responder) -/

/-- `vision_data.get("scene_description", "an image")` (always a string in
every context the repository produces). -/
def sceneOf (vision_data : PyDict) : String :=
  match dictLookup vision_data "scene_description" with
  | some (.vstr s) => s
  | some _ => ""
  | none => "an image"

/-- `vision_data.get("detected_objects", {})` viewed as its label-to-count pairs. -/
def objectsOf (vision_data : PyDict) : List (String × Nat) :=
  match dictLookup vision_data "detected_objects" with
  | some (.vdict d) =>
    d.filterMap (fun kv => match kv.2 with | .vnat n => some (kv.1, n) | _ => none)
  | _ => []

/-- `vision_data.get("text_detected", [])` viewed as its string entries. -/
def textOf (vision_data : PyDict) : List String :=
  match dictLookup vision_data "text_detected" with
  | some (.vlist l) => l.filterMap (fun v => match v with | .vstr s => some s | _ => none)
  | _ => []

/-- The keyword-search loop of `generate_local_reply`: the first detected
object whose lowercased label occurs in the lowercased query, with its count. -/
def findSpecificObject (query_lower : String) : List (String × Nat) → Option (String × Nat)
  | [] => none
  | (name, count) :: rest =>
    if strContains query_lower (pyLower name) then some (name, count)
    else findSpecificObject query_lower rest

/-- `", ".join(f"{count} {name}" ...) if objects else "some visual elements"`. -/
def objStrOf (objects : List (String × Nat)) : String :=
  if objects.isEmpty then "some visual elements"
  else String.intercalate ", " (objects.map (fun p => toString p.2 ++ " " ++ p.1))

/-- `', '.join(text) if text and text[0] != 'No readable text detected' else dflt`. -/
def textLabels (text : List String) (dflt : String) : String :=
  match text with
  | [] => dflt
  | t0 :: _ =>
    if t0 = "No readable text detected" then dflt else String.intercalate ", " text

/-- `list(objects.keys())[0] if objects else dflt`. -/
def firstKeyOr (objects : List (String × Nat)) (dflt : String) : String :=
  match objects with
  | [] => dflt
  | p :: _ => p.1

/-- `LocalResponseLayer.generate_local_reply` — a total pure function of the
query, the pinned vision data and the mode.  (Python f-string formatting has
no grouping; the concatenation below is grouped so that the keyword-matched
specific answer is a syntactic prefix of the reply.) -/
def generate_local_reply (query : String) (vision_data : PyDict) (mode : String) : String :=
  let scene := sceneOf vision_data
  let objects := objectsOf vision_data
  let text := textOf vision_data
  let obj_str := objStrOf objects
  let query_lower := pyLower query
  let specific_answer :=
    match findSpecificObject query_lower objects with
    | some p =>
      "Observation: Yes, I can confirm that " ++ toString p.2 ++ " " ++ p.1 ++
        "(s) are visible in the scene. "
    | none => ""
  let parts :=
    if mode = "MODE 1: STORYTELLING" then
      ("The Narrative (Interconnected Journey): In this evocative scene of "
        ++ scene ++ ", we find a world where " ++ obj_str
        ++ " coexist in a delicate balance. The atmosphere is thick with potential, each element playing a vital role in the unfolding journey of this frame.\n\nAs we look deeper, the relationship between the "
        ++ obj_str
        ++ " reveals a hidden tension. The spatial layout suggests a shared history, where every character is destined for a shared fate, woven together by the sensory details of the "
        ++ scene
        ++ ".\n\nUltimately, this moment captures a snapshot of a much larger story. The emotional anchor of the scene is solidified by the presence of the "
        ++ firstKeyOr objects "primary elements"
        ++ ", leaving a lasting impression on any observer.",
       "Key Metrics (Story)", "Key Points (Narrative)")
    else if mode = "MODE 2: CHART INTERPRETATION" then
      ("Key Observations: The visual data indicates " ++ scene
        ++ ". Detected labels include " ++ textLabels text "no specific text"
        ++ ". The spatial layout suggests a distribution of " ++ obj_str ++ ".",
       "Key Metrics (Data)", "Key Points (Statistical)")
    else if mode = "MODE 4: LEARNING / DIAGRAM EXPLANATION" then
      ("Step-by-Step Explanation: 1. The system identifies the scene as "
        ++ scene ++ ".\n2. Key components detected include " ++ obj_str
        ++ ".\n3. Technical labels found: " ++ textLabels text "None" ++ ".",
       "Key Metrics (Logic)", "Key Points (Diagram)")
    else
      ("Image Overview: This scene is interpreted as " ++ scene
        ++ ". The primary elements identified in this frame are " ++ obj_str
        ++ ", which dominate the visual field.\n\nLooking at the spatial context, the "
        ++ toString objects.length
        ++ " distinct object types are arranged in a way that suggests a standard visual environment. The background and lighting cues from the "
        ++ scene
        ++ " provide a stable context for these elements.\n\nIn summary, the image presents a clear representation of "
        ++ scene ++ ". The composition is balanced, with the "
        ++ firstKeyOr objects "visual anchors"
        ++ " serving as the primary focus points.",
       "Key Metrics (Visual)", "Key Points (Anchors)")
  let metrics := "Objects: " ++ toString objects.length ++ ", Unique classes: "
    ++ toString ((objects.map Prod.fst).dedup.length)
  let points := "Primary focus: " ++ firstKeyOr objects "Background context"
  specific_answer ++
    (parts.1 ++ ("\n" ++ (parts.2.1 ++ (": " ++ (metrics ++ ("\n" ++ (parts.2.2 ++ (": " ++ points))))))))

/-! ## routers/chat.py — the Hybrid Response Gateway -/

/-- The form fields of a POST /chat request. -/
structure ChatRequest where
  image : Option UploadImage
  query : String
  session_id : Option String
  user_id : Option String
  mode : String
  image_preview : Option String

/-- All external effects of one request, passed in explicitly:
`freshId` is `uuid.uuid4()`, `b64decode` the base64 decoder, `pilOpen` the
image decoder, `engine` the local vision pipeline (`.error` = it raised),
`apiKey` the `GEMINI_API_KEY` value, `net` the per-model HTTP outcome and
`elapsed` the measured latency. -/
structure Oracles where
  freshId : String
  b64decode : String → Except String Bytes
  pilOpen : Bytes → Except String PILImage
  engine : PILImage → Except String PyDict
  apiKey : String
  net : String → ApiOutcome
  elapsed : Nat

/-- The nested `response` object of the envelope. -/
structure ChatResponse where
  text : String
  smart_suggestions : List String
  mode : String

/-- The response envelope returned by `chat_endpoint`. -/
structure Envelope where
  session_id : String
  response : ChatResponse
  visual_summary : Val
  vision_metadata : PyDict
  risk_assessment : Val
  narrative : String
  latency : Nat

/-- The resolved session id of a request. -/
def sessionIdOf (req : ChatRequest) (o : Oracles) : String :=
  get_or_create_session_id req.session_id o.freshId

/-- The sanitized query of a request. -/
def cleanQueryOf (req : ChatRequest) : String := sanitize_text req.query

/-- `image_preview.split(",", 1)[1]`: everything after the first comma. -/
def afterFirstComma (s : String) : String :=
  String.intercalate "," ((s.splitOn ",").tail)

/-- Step 1 of the gateway: the active image bytes, if any.  A file upload is
validated (validation failure propagates); otherwise a data-URL preview is
decoded, and a failed decode is logged and skipped, never fatal. -/
def activeBytes (req : ChatRequest) (o : Oracles) : Except Fault (Option Bytes) :=
  match req.image with
  | some f => (validate_image f).map some
  | none =>
    match req.image_preview with
    | some pv =>
      if pv ≠ "" ∧ strContains pv "," then
        match o.b64decode (afterFirstComma pv) with
        | .ok b => .ok (some b)
        | .error _ => .ok none
      else .ok none
    | none => .ok none

/-- Image refresh: preprocess and analyze the active bytes and overwrite the
session's pinned vision context (`if active_image_bytes:` — empty bytes are
falsy and skipped). -/
def storeAfterRefresh (req : ChatRequest) (o : Oracles) (st : Store) : Except Fault Store :=
  match activeBytes req o with
  | .error f => .error f
  | .ok none => .ok st
  | .ok (some b) =>
    if b.isEmpty then .ok st
    else
      match process o.pilOpen b with
      | .error e => .error (.processingError e)
      | .ok img =>
        .ok (set_vision_context st (sessionIdOf req o) (analyze (o.engine img)))

/-- The remote attempt of the gateway applied to a composed payload `p`: a
successful remote answer is used as is, except that the reserved
`"initial_state"` sentinel is replaced by the canned upload message; any
reasoner failure fires the Local Fallback Responder (and an empty vision
context overrides its output with the canned upload message).  The Bool
is the `api_failed` flag. -/
def remoteOrFallback (apiKey : String) (net : String → ApiOutcome) (pv : PyDict)
    (clean_query mode : String) (p : PromptData) : String × Bool :=
  match generate_response apiKey p net with
  | .ok r =>
    (if r = "initial_state" then "Please upload an image to begin." else r, false)
  | .error _ =>
    let localReply := generate_local_reply clean_query pv mode
    (if pv.isEmpty then "Please upload an image to begin." else localReply, true)

/-- Step 3 of the gateway (chat.py lines 75-94): compose the prompt,
short-circuit the sentinels to canned texts, otherwise try the remote path
with local fallback.  Returns `(raw_response, api_failed)`. -/
def gatewayDecide (apiKey : String) (net : String → ApiOutcome) (pv : PyDict)
    (history : List Turn) (clean_query mode : String) : String × Bool :=
  match construct_prompt pv history clean_query (some mode) with
  | .selectMode => ("Please select a mode to continue.", false)
  | .uploadImage => ("Please upload an image to begin.", false)
  | .payload p => remoteOrFallback apiKey net pv clean_query mode p

/-- The boundary lookahead of the narrative regex:
`\n[A-Z][A-Za-z\s\(\)/]+:` tested at the head of the character list. -/
def narrativeBoundaryAt : List Char → Bool
  | '\n' :: c :: rest =>
    c.isUpper &&
      (let run := rest.takeWhile
        (fun ch => ch.isAlpha || ch.isWhitespace || ch = '(' || ch = ')' || ch = '/')
       decide (run.length ≥ 1) && ((rest.drop run.length).head? == some ':'))
  | _ => false

/-- Characters up to the earliest narrative boundary (the non-greedy `(.*?)`
with the lookahead, `$` meaning end of input). -/
def takeUntilBoundary : List Char → List Char
  | [] => []
  | c :: rest =>
    if narrativeBoundaryAt (c :: rest) then [] else c :: takeUntilBoundary rest

/-- The text after the first occurrence of `marker`, or none. -/
def afterFirstMarker (raw marker : String) : Option String :=
  match raw.splitOn marker with
  | [] => none
  | [_] => none
  | _ :: rest => some (String.intercalate marker rest)

/-- Step 6 of the gateway: extract the narrative excerpt for the insight card
(the `re.search` calls of chat.py lines 109-122; the dotted non-greedy capture
with its lookahead is rendered by `takeUntilBoundary`). -/
def extractNarrative (raw_response : String) (pv : PyDict) : String :=
  let dflt :=
    match dictLookup pv "scene_description" with
    | some (.vstr s) => s
    | some _ => ""
    | none => "No narrative yet."
  if strContains raw_response "The Narrative" then
    match afterFirstMarker raw_response "The Narrative" with
    | some tailPart =>
      match afterFirstMarker tailPart ":" with
      | some afterColon => (takeUntilBoundary afterColon.data).asString.trim
      | none => dflt
    | none => dflt
  else if strContains raw_response "Image Overview" then
    match afterFirstMarker raw_response "Image Overview:" with
    | some afterColon => (takeUntilBoundary afterColon.data).asString.trim
    | none => dflt
  else dflt

/-- Step 7: the smart-suggestion list, extended with the risk-mitigation
suggestion when a non-default risk assessment is pinned. -/
def suggestionsFor (pv : PyDict) : List String :=
  let base := ["Tell me more about the layout", "Are there any risks?", "Describe the colors"]
  match dictLookup pv "risk_assessment" with
  | some (.vstr s) =>
    if s ≠ "" ∧ ¬ strContains (pyLower s) "standard" = true then
      base ++ ["How can the risks be mitigated?"]
    else base
  | _ => base

/-- The pinned vision context visible at the decision step (step 2,
`full_context.get("persistent_vision", {})`), given the refreshed store. -/
def decisionVision (req : ChatRequest) (o : Oracles) (st1 : Store) : PyDict :=
  (get_context st1 (sessionIdOf req o)).persistent_vision

/-- The history snapshot visible at the decision step, given the refreshed store. -/
def decisionHistory (req : ChatRequest) (o : Oracles) (st1 : Store) : List Turn :=
  (get_context st1 (sessionIdOf req o)).conversation_history

/-- The `(raw_response, api_failed)` pair of a request, given the refreshed store. -/
def decisionOf (req : ChatRequest) (o : Oracles) (st1 : Store) : String × Bool :=
  gatewayDecide o.apiKey o.net (decisionVision req o st1) (decisionHistory req o st1)
    (cleanQueryOf req) req.mode

/-- Steps 6-7 plus envelope assembly (chat.py lines 109-142), given the
refreshed store. -/
def envelopeFor (req : ChatRequest) (o : Oracles) (st1 : Store) : Envelope :=
  let pv := decisionVision req o st1
  let dec := decisionOf req o st1
  { session_id := sessionIdOf req o,
    response :=
      { text := dec.1,
        smart_suggestions := suggestionsFor pv,
        mode := if dec.2 then "local" else "hybrid" },
    visual_summary := (dictLookup pv "scene_description").getD (.vstr "Active"),
    vision_metadata := pv,
    risk_assessment := (dictLookup pv "risk_assessment").getD (.vstr "Safe"),
    narrative := extractNarrative dec.1 pv,
    latency := o.elapsed }

/-- Step 4, the dialogue memory update, given the refreshed store. -/
def storeAfterTurn (req : ChatRequest) (o : Oracles) (st1 : Store) : Store :=
  add_interaction st1 (sessionIdOf req o) (cleanQueryOf req) (decisionOf req o st1).1

/-- `chat_endpoint` (chat.py lines 31-147): the full per-request gateway.
The DB persistence step (`save_chat_session`, an external collaborator) has
no effect on the returned envelope or the in-process store and is omitted.
Every fault that escapes the body is re-raised by the outer handler as
HTTP 500 via `toHttpError`. -/
def chat_endpoint (req : ChatRequest) (o : Oracles) (st : Store) :
    Except Fault (Envelope × Store) :=
  match storeAfterRefresh req o st with
  | .error f => .error f
  | .ok st1 => .ok (envelopeFor req o st1, storeAfterTurn req o st1)

/-- Runs a sequence of requests in order against the in-process store,
counting the completed (non-error) ones; a failed request leaves the store
untouched (its failure happens before the memory update). -/
def runChat : List (ChatRequest × Oracles) → Store → Store × Nat
  | [], st => (st, 0)
  | (req, o) :: rest, st =>
    match chat_endpoint req o st with
    | .ok (_, st') => let r := runChat rest st'; (r.1, r.2 + 1)
    | .error _ => runChat rest st

/-! ## Derived notions used by the claims -/

/-- Strict user/assistant alternation in submission order. -/
def alternatingUA : List Turn → Bool
  | [] => true
  | [_] => false
  | t1 :: t2 :: rest => t1.role = "user" && t2.role = "assistant" && alternatingUA rest

/-- The count stored for label `n` in a label-to-count mapping. -/
def lookupCount (objects : List (String × Nat)) (n : String) : Option Nat :=
  (objects.find? (fun p => p.1 = n)).map Prod.snd

/-- Every `(label, count)` pair interpolated into a local reply: the pair of
the keyword-matched specific answer (if the loop fired) and the pairs listed
verbatim in `obj_str` — exactly the per-object counts the reply asserts. -/
def assertedObjectCounts (query : String) (objects : List (String × Nat)) :
    List (String × Nat) :=
  (match findSpecificObject (pyLower query) objects with
   | some p => [p]
   | none => []) ++ objects

/-- Semantic failure condition of one candidate attempt exactly as the
original claim words it: a non-success status or a transport error. -/
def nonSuccessOrTransport : ApiOutcome → Bool
  | .fail _ => true
  | .response s _ => s ≠ 200

/-- A candidate attempt that actually yields an answer in the code: success
status and a non-empty candidate list. -/
def producesAnswer : ApiOutcome → Bool
  | .response s cands => s == 200 && !cands.isEmpty
  | .fail _ => false

/-- `True` exactly when the reasoner result is a raised `ConnectionError`. -/
def exceptFails : Except String String → Bool
  | .ok _ => false
  | .error _ => true

/-! ## Concrete fixtures used by witnesses and counterexamples -/

/-- A vision context of the shape the local pipeline produces. -/
def carVision : PyDict :=
  [("analysis_mode", .vstr "Offline Local AI"),
   ("scene_description", .vstr "a red car on a street"),
   ("detected_objects", .vdict [("car", .vnat 2), ("person", .vnat 1)]),
   ("text_detected", .vlist [.vstr "No readable text detected"]),
   ("risk_assessment", .vstr "Standard environment. No high-risk anomalies detected.")]

/-- Oracles with no credential and every external collaborator failing. -/
def noopOracles : Oracles :=
  { freshId := "fresh-uuid", b64decode := fun _ => .error "bad b64",
    pilOpen := fun _ => .error "bad image", engine := fun _ => .error "engine down",
    apiKey := "", net := fun _ => .fail "network down", elapsed := 0 }

/-- The concrete request of the C5 witness: mode sent as the empty string. -/
def unsetModeReq : ChatRequest :=
  { image := none, query := "hello", session_id := some "s1", user_id := none,
    mode := "", image_preview := none }

/-- The concrete request of the C6 witness: mode selected, no image ever sent. -/
def setModeReq : ChatRequest :=
  { image := none, query := "hello", session_id := some "s1", user_id := none,
    mode := "standard", image_preview := none }

/-- The concrete first-contact payload of the C10 witness. -/
def firstContactPayload : PromptData :=
  { system_instruction := emptyMarker, contents := [] }

/-- The vision context of the C8 witness. -/
def c8Vision : PyDict :=
  [("scene_description", .vstr "a busy street"),
   ("detected_objects", .vdict [("car", .vnat 2), ("person", .vnat 1)]),
   ("text_detected", .vlist [.vstr "No readable text detected"])]

/-- Whether `construct_prompt` produced a real payload (not a sentinel). -/
def PromptResult.isPayload : PromptResult → Bool
  | .payload _ => true
  | _ => false

/-- A non-first-contact payload used by the C3 counterexample and witness. -/
def c3Payload : PromptData :=
  { system_instruction := "sys",
    contents := [{ role := "user", text := "a" }, { role := "user", text := "b" }] }

/-- Network oracle where every candidate model answers HTTP 200 with an empty
candidates list. -/
def emptyCandidatesNet : String → ApiOutcome := fun _ => .response 200 []

/-- Network oracle where the first-priority model times out and the second
answers. -/
def c3WitnessNet : String → ApiOutcome := fun m =>
  if m = "gemini-1.5-pro" then .response 200 ["pong"] else .fail "timeout"

/-- The concrete request and store of the C1 witness. -/
def c1Req : ChatRequest :=
  { image := none, query := "what is here", session_id := some "s1", user_id := none,
    mode := "standard", image_preview := none }

/-- Session store with a pinned vision context for the C1 witness. -/
def c1Store : Store := set_vision_context emptyStore "s1" carVision

/-- The mid-conversation degraded request of C4. -/
def c4Req : ChatRequest :=
  { image := none, query := "how many cars", session_id := some "s4", user_id := none,
    mode := "standard", image_preview := none }

/-- A session that already holds one full turn and a pinned vision context. -/
def c4Store : Store :=
  add_interaction (set_vision_context emptyStore "s4" carVision)
    "s4" "first question" "first answer"

/-- The empty-file upload of the C7 witness. -/
def badUploadReq : ChatRequest :=
  { image := some { content_type := "image/jpeg", data := [] }, query := "hi",
    session_id := some "s7", user_id := none, mode := "standard", image_preview := none }

/-- The request of the C2 witness. -/
def c2Req : ChatRequest :=
  { image := none, query := "q", session_id := some "s2", user_id := none,
    mode := "", image_preview := none }

/-- Two consecutive C2-witness requests on the same session. -/
def c2Reqs : List (ChatRequest × Oracles) := [(c2Req, noopOracles), (c2Req, noopOracles)]

/-! ## Helper lemmas -/

theorem chat_endpoint_ok_iff {req : ChatRequest} {o : Oracles} {st : Store}
    {env : Envelope} {st' : Store} :
    chat_endpoint req o st = .ok (env, st') ↔
      ∃ st1, storeAfterRefresh req o st = .ok st1
        ∧ env = envelopeFor req o st1 ∧ st' = storeAfterTurn req o st1 := by
  unfold chat_endpoint
  cases hsr : storeAfterRefresh req o st with
  | error f => simp
  | ok st1 =>
    simp only [Except.ok.injEq, Prod.mk.injEq]
    constructor
    · rintro ⟨he, hs⟩; exact ⟨st1, rfl, he.symm, hs.symm⟩
    · rintro ⟨st2, h1, h2, h3⟩
      cases h1
      exact ⟨h2.symm, h3.symm⟩

theorem set_vision_context_history (st : Store) (sid : String) (vd : PyDict) (k : String) :
    (get_context (set_vision_context st sid vd) k).conversation_history =
      (get_context st k).conversation_history := by
  unfold get_context set_vision_context
  by_cases h : k = sid
  · subst h
    cases st k <;> simp [emptySession]
  · simp [h]

theorem storeAfterRefresh_history {req : ChatRequest} {o : Oracles} {st st1 : Store}
    (h : storeAfterRefresh req o st = .ok st1) (k : String) :
    (get_context st1 k).conversation_history = (get_context st k).conversation_history := by
  cases hab : activeBytes req o with
  | error f => simp [storeAfterRefresh, hab] at h
  | ok ob =>
    cases ob with
    | none =>
      simp [storeAfterRefresh, hab] at h
      subst h; rfl
    | some b =>
      by_cases hb : b.isEmpty
      · simp [storeAfterRefresh, hab, hb] at h
        subst h; rfl
      · cases hp : process o.pilOpen b with
        | error e => simp [storeAfterRefresh, hab, hb, hp] at h
        | ok img =>
          simp [storeAfterRefresh, hab, hb, hp] at h
          subst h
          exact set_vision_context_history ..

theorem add_interaction_history (st : Store) (sid q r : String) :
    (get_context (add_interaction st sid q r) sid).conversation_history =
      (get_context st sid).conversation_history ++ [⟨"user", q⟩, ⟨"assistant", r⟩] := by
  unfold get_context add_interaction
  cases st sid <;> simp [emptySession]

theorem add_interaction_history_other (st : Store) (sid q r k : String) (hk : k ≠ sid) :
    (get_context (add_interaction st sid q r) k).conversation_history =
      (get_context st k).conversation_history := by
  unfold get_context add_interaction
  simp [hk]

theorem alternatingUA_append_pair :
    ∀ (h : List Turn) (q r : String), alternatingUA h = true →
      alternatingUA (h ++ [⟨"user", q⟩, ⟨"assistant", r⟩]) = true
  | [], _, _, _ => by simp [alternatingUA]
  | [_], _, _, hh => by simp [alternatingUA] at hh
  | t1 :: t2 :: rest, q, r, hh => by
    simp only [alternatingUA, Bool.and_eq_true, decide_eq_true_eq] at hh
    obtain ⟨⟨h1, h2⟩, h3⟩ := hh
    simpa [alternatingUA, h1, h2] using alternatingUA_append_pair rest q r h3

theorem tryModels_fails_iff (net : String → ApiOutcome) :
    ∀ (ms : List String) (le : String),
      exceptFails (tryModels net ms le) = true ↔ ∀ m ∈ ms, producesAnswer (net m) = false
  | [], le => by simp [tryModels, exceptFails]
  | m :: rest, le => by
    cases h : net m with
    | fail e =>
      simp only [tryModels, h]
      rw [tryModels_fails_iff net rest e]
      simp [List.forall_mem_cons, h, producesAnswer]
    | response s cands =>
      by_cases hs : s = 200
      · subst hs
        cases cands with
        | nil =>
          simp only [tryModels, h, ite_self]
          rw [tryModels_fails_iff net rest _]
          simp [List.forall_mem_cons, h, producesAnswer]
        | cons t ts =>
          simp only [tryModels, h, if_pos rfl]
          simp [exceptFails, List.forall_mem_cons, h, producesAnswer]
      · simp only [tryModels, h, if_neg hs]
        rw [tryModels_fails_iff net rest _]
        simp [List.forall_mem_cons, h, producesAnswer, hs]

theorem all_falsy_sceneMissing (pv : PyDict)
    (h : pv.all (fun kv => !kv.2.truthy) = true) : sceneMissing pv = true := by
  unfold sceneMissing dictLookup
  cases hf : pv.find? (fun p => p.1 = "scene_description") with
  | none => simp
  | some p =>
    have hmem := List.mem_of_find?_eq_some hf
    have := List.all_eq_true.mp h _ hmem
    simpa using this

theorem construct_uploadImage_iff (pv : PyDict) (hist : List Turn) (q : String)
    (m : String) (hm : isUnsetMode (some m) = false) :
    construct_prompt pv hist q (some m) = .uploadImage ↔
      (pv = [] ∨ sceneMissing pv = true) := by
  unfold construct_prompt
  rw [hm]
  simp only [Bool.false_eq_true, if_false]
  by_cases h2 : (pv.isEmpty || pv.all fun kv => !kv.2.truthy) = true
  · rw [if_pos h2]
    simp only [true_iff]
    rcases Bool.or_eq_true _ _ |>.mp h2 with he | ha
    · exact Or.inl (List.isEmpty_iff.mp he)
    · exact Or.inr (all_falsy_sceneMissing pv ha)
  · rw [if_neg h2]
    by_cases h3 : sceneMissing pv = true
    · simp [h3]
    · rw [if_neg h3]
      constructor
      · intro hcontra; cases hcontra  -- .payload ≠ .uploadImage
      · rintro (he | hs)
        · exact absurd (by simp [he]) h2
        · exact absurd hs h3

theorem findSpecificObject_mem :
    ∀ (ql : String) (objects : List (String × Nat)) (p : String × Nat),
      findSpecificObject ql objects = some p → p ∈ objects
  | _, [], _, h => by cases h
  | ql, (n, c) :: rest, p, h => by
    unfold findSpecificObject at h
    by_cases hc : strContains ql (pyLower n) = true
    · rw [if_pos hc] at h
      cases h
      exact List.mem_cons_self ..
    · rw [if_neg hc] at h
      exact List.mem_cons_of_mem _ (findSpecificObject_mem ql rest p h)

theorem lookupCount_of_mem_nodup :
    ∀ (objects : List (String × Nat)) (n : String) (c : Nat),
      (n, c) ∈ objects → (objects.map Prod.fst).Nodup → lookupCount objects n = some c
  | [], n, c, hmem, _ => by cases hmem
  | (n', c') :: rest, n, c, hmem, hnd => by
    rcases List.mem_cons.mp hmem with heq | htail
    · cases heq
      rw [lookupCount, List.find?_cons_of_pos _ (by simp)]
      rfl
    · have hnd' : n' ∉ rest.map Prod.fst ∧ (rest.map Prod.fst).Nodup := by
        rw [List.map_cons] at hnd
        exact List.nodup_cons.mp hnd
      have hne : n' ≠ n := by
        intro he
        apply hnd'.1
        rw [he]
        exact List.mem_map_of_mem Prod.fst htail
      have ih := lookupCount_of_mem_nodup rest n c htail hnd'.2
      rw [lookupCount, List.find?_cons_of_neg _ (by simp [hne])]
      exact ih

/-! ## Claim theorems -/

/-- Claim C5: for every vision context, history and query, an absent/unset
mode makes the Prompt Composer return the NEED_MODE sentinel before
inspecting anything else, and a completed request whose mode field is unset
always answers with the canned select-a-mode text, regardless of vision
context or history. -/
theorem c5_unset_mode_selects_sentinel
    (m : Option String) (pv : PyDict) (hist : List Turn) (q : String)
    (req : ChatRequest) (o : Oracles) (st : Store) (env : Envelope) (st' : Store)
    (hm : isUnsetMode m = true)
    (hrm : isUnsetMode (some req.mode) = true)
    (hok : chat_endpoint req o st = .ok (env, st')) :
    construct_prompt pv hist q m = .selectMode
      ∧ env.response.text = "Please select a mode to continue." := by
  refine ⟨by unfold construct_prompt; rw [hm]; simp, ?_⟩
  obtain ⟨st1, hsr, henv, hst⟩ := chat_endpoint_ok_iff.mp hok
  subst henv
  show (decisionOf req o st1).1 = _
  unfold decisionOf gatewayDecide construct_prompt
  rw [hrm]
  simp

/-- Witness for C5 at a concrete request. -/
theorem c5_witness :
    construct_prompt carVision [] "hello" none = .selectMode
      ∧ (envelopeFor unsetModeReq noopOracles emptyStore).response.text =
          "Please select a mode to continue." :=
  c5_unset_mode_selects_sentinel none carVision [] "hello" unsetModeReq noopOracles
    emptyStore (envelopeFor unsetModeReq noopOracles emptyStore)
    (storeAfterTurn unsetModeReq noopOracles emptyStore) rfl (by decide) rfl

/-- Claim C6: with a selected mode, the Prompt Composer returns the NEED_IMAGE
sentinel exactly when the pinned vision context is empty or lacks a truthy
(non-blank) scene description, and every completed request whose
decision-time vision context is empty or scene-less answers with the canned
upload-an-image text, regardless of mode or history. -/
theorem c6_empty_vision_upload_sentinel
    (pv : PyDict) (hist : List Turn) (q : String) (m : String)
    (req : ChatRequest) (o : Oracles) (st st1 : Store) (env : Envelope) (st' : Store)
    (hm : isUnsetMode (some m) = false)
    (hrm : isUnsetMode (some req.mode) = false)
    (hsr : storeAfterRefresh req o st = .ok st1)
    (hok : chat_endpoint req o st = .ok (env, st'))
    (hpv : decisionVision req o st1 = []
      ∨ sceneMissing (decisionVision req o st1) = true) :
    (construct_prompt pv hist q (some m) = .uploadImage
        ↔ (pv = [] ∨ sceneMissing pv = true))
      ∧ env.response.text = "Please upload an image to begin." := by
  refine ⟨construct_uploadImage_iff pv hist q m hm, ?_⟩
  obtain ⟨st2, hsr2, henv, hst⟩ := chat_endpoint_ok_iff.mp hok
  rw [hsr] at hsr2
  injection hsr2 with h12
  subst h12
  subst henv
  show (decisionOf req o st1).1 = _
  have hcp : construct_prompt (decisionVision req o st1) (decisionHistory req o st1)
      (cleanQueryOf req) (some req.mode) = .uploadImage :=
    (construct_uploadImage_iff _ _ _ _ hrm).mpr hpv
  unfold decisionOf gatewayDecide
  rw [hcp]

/-- Witness for C6 at a concrete request. -/
theorem c6_witness :
    (construct_prompt [] [] "hello" (some "standard") = .uploadImage
        ↔ (([] : PyDict) = [] ∨ sceneMissing [] = true))
      ∧ (envelopeFor setModeReq noopOracles emptyStore).response.text =
          "Please upload an image to begin." :=
  c6_empty_vision_upload_sentinel [] [] "hello" "standard" setModeReq noopOracles
    emptyStore emptyStore (envelopeFor setModeReq noopOracles emptyStore)
    (storeAfterTurn setModeReq noopOracles emptyStore)
    (by decide) (by decide) rfl rfl (Or.inl rfl)

/-- Claim C10: a payload whose system instruction contains the bare
empty-context marker and which carries no prior turns (at most the current
query) makes the Remote Reasoner return the reserved first-contact sentinel
rather than an error (given a configured credential), and the gateway's
remote branch translates that sentinel into the canned upload-an-image
message, never exposing the sentinel text verbatim. -/
theorem c10_first_contact_sentinel
    (k : String) (p : PromptData) (net : String → ApiOutcome)
    (pv : PyDict) (q mode : String)
    (hk : k ≠ "")
    (hmark : strContains p.system_instruction emptyMarker = true)
    (hlen : p.contents.length ≤ 1) :
    generate_response k p net = .ok "initial_state"
      ∧ (remoteOrFallback k net pv q mode p).1 = "Please upload an image to begin."
      ∧ (remoteOrFallback k net pv q mode p).1 ≠ "initial_state" := by
  have h1 : generate_response k p net = .ok "initial_state" := by
    unfold generate_response
    rw [if_neg hk, if_pos ⟨hmark, hlen⟩]
  refine ⟨h1, ?_, ?_⟩
  · unfold remoteOrFallback
    rw [h1]
    simp
  · unfold remoteOrFallback
    rw [h1]
    simp

/-- Witness for C10 at a concrete payload and credential. -/
theorem c10_witness :
    generate_response "key" firstContactPayload (fun _ => .fail "down")
        = .ok "initial_state"
      ∧ (remoteOrFallback "key" (fun _ => .fail "down") [] "hi" "standard"
          firstContactPayload).1 = "Please upload an image to begin."
      ∧ (remoteOrFallback "key" (fun _ => .fail "down") [] "hi" "standard"
          firstContactPayload).1 ≠ "initial_state" :=
  c10_first_contact_sentinel "key" firstContactPayload (fun _ => .fail "down")
    [] "hi" "standard" (by decide) (by decide) (by decide)

/-- Counterexample to claim C9 as stated: when the underlying pipeline raises,
the degraded context's `text_detected` is the one-element error-marker list,
not the empty list the claim asserts ("empty-but-well-typed ... text_detected"). -/
theorem c9_counterexample :
    dictLookup (analyze (.error "boom")) "text_detected"
        = some (.vlist [.vstr "Error during local processing"])
      ∧ dictLookup (analyze (.error "boom")) "text_detected" ≠ some (.vlist []) := by
  refine ⟨rfl, ?_⟩
  intro h
  have h2 : some (Val.vlist [Val.vstr "Error during local processing"])
      = some (Val.vlist ([] : List Val)) :=
    (rfl : dictLookup (analyze (.error "boom")) "text_detected" = _).symm.trans h
  simp at h2

/-- Amended C9: for every pipeline failure, `analyze` does not raise and
returns the degraded context with an explanatory confidence note, an empty
`detected_objects` mapping, a well-typed one-element `text_detected` holding
an error marker (not an empty list), and a placeholder scene description. -/
theorem c9_failsafe_degraded_context (e : String) :
    dictLookup (analyze (.error e)) "confidence_note"
        = some (.vstr ("Failsafe mode triggered: " ++ e))
      ∧ dictLookup (analyze (.error e)) "detected_objects" = some (.vdict [])
      ∧ dictLookup (analyze (.error e)) "text_detected"
          = some (.vlist [.vstr "Error during local processing"])
      ∧ dictLookup (analyze (.error e)) "scene_description"
          = some (.vstr "Scene analysis unavailable.")
      ∧ objectsOf (analyze (.error e)) = []
      ∧ sceneOf (analyze (.error e)) = "Scene analysis unavailable." :=
  ⟨rfl, rfl, rfl, rfl, rfl, rfl⟩

/-- Claim C8: the Local Fallback Responder is total by construction (a Lean
`def` on all queries, contexts and modes), every per-object count it asserts
(the keyword-matched specific answer and the `obj_str` enumeration) is
exactly the count present in `detected_objects` — hence never exceeds it —
and when the keyword loop fires the reply literally begins with the matched
count and label. -/
theorem c8_local_reply_count_bound
    (query : String) (vision_data : PyDict) (n : String) (c : Nat)
    (hnd : ((objectsOf vision_data).map Prod.fst).Nodup)
    (hmem : (n, c) ∈ assertedObjectCounts query (objectsOf vision_data)) :
    (∃ c0, lookupCount (objectsOf vision_data) n = some c0 ∧ c ≤ c0)
      ∧ (findSpecificObject (pyLower query) (objectsOf vision_data) = some (n, c) →
          ∀ mode, ∃ rest, generate_local_reply query vision_data mode =
            "Observation: Yes, I can confirm that " ++ toString c ++ " " ++ n ++
              "(s) are visible in the scene. " ++ rest) := by
  constructor
  · have hmem' : (n, c) ∈ objectsOf vision_data := by
      unfold assertedObjectCounts at hmem
      rcases List.mem_append.mp hmem with h | h
      · cases hf : findSpecificObject (pyLower query) (objectsOf vision_data) with
        | none => rw [hf] at h; cases h
        | some p =>
          rw [hf] at h
          have hp : (n, c) = p := by simpa using h
          rw [hp]
          exact findSpecificObject_mem _ _ _ hf
      · exact h
    exact ⟨c, lookupCount_of_mem_nodup _ _ _ hmem' hnd, Nat.le_refl c⟩
  · intro hf mode
    unfold generate_local_reply
    simp only [hf]
    exact ⟨_, rfl⟩

/-- Witness for C8 at a concrete query and context. -/
theorem c8_witness :
    (∃ c0, lookupCount (objectsOf c8Vision) "car" = some c0 ∧ 2 ≤ c0)
      ∧ (findSpecificObject (pyLower "how many cars") (objectsOf c8Vision)
            = some ("car", 2) →
          ∀ mode, ∃ rest, generate_local_reply "how many cars" c8Vision mode =
            "Observation: Yes, I can confirm that " ++ toString 2 ++ " " ++ "car" ++
              "(s) are visible in the scene. " ++ rest) :=
  c8_local_reply_count_bound "how many cars" c8Vision "car" 2 (by decide) (by decide)

/-- Counterexample to claim C3 as stated: with a configured credential and
every candidate model returning a SUCCESS status but an empty candidates
list, `generate_response` still raises the connectivity error, although no
candidate yielded a non-success status or a transport error — refuting the
claimed "exactly when". -/
theorem c3_counterexample :
    exceptFails (generate_response "key" c3Payload emptyCandidatesNet) = true
      ∧ ¬("key" = ""
          ∨ ∀ m ∈ modelsToTry, nonSuccessOrTransport (emptyCandidatesNet m) = true) := by
  constructor
  · rfl
  · intro h
    rcases h with h | h
    · exact absurd h (by decide)
    · have h2 := h "gemini-1.5-flash" (by decide)
      simp [emptyCandidatesNet, nonSuccessOrTransport] at h2

/-- Amended C3: on a non-first-contact payload, `generate_response` fails
exactly when no credential is configured or no candidate model yields a
success-status response carrying at least one candidate answer (a success
status with an empty candidate list counts as a failed candidate, alongside
non-success statuses and transport errors); candidates are tried in the fixed
priority order and the first answering one returns its first answer trimmed. -/
theorem c3_remote_failure_characterization
    (k : String) (p : PromptData) (net : String → ApiOutcome)
    (hns : ¬(strContains p.system_instruction emptyMarker = true
      ∧ p.contents.length ≤ 1)) :
    (exceptFails (generate_response k p net) = true ↔
        (k = "" ∨ ∀ m ∈ modelsToTry, producesAnswer (net m) = false))
      ∧ (∀ t ts, k ≠ "" → net "gemini-1.5-flash" = .response 200 (t :: ts) →
          generate_response k p net = .ok t.trim)
      ∧ (∀ t ts, k ≠ "" → producesAnswer (net "gemini-1.5-flash") = false →
          net "gemini-1.5-pro" = .response 200 (t :: ts) →
          generate_response k p net = .ok t.trim) := by
  have hgen : ∀ (_ : k ≠ ""), generate_response k p net = tryModels net modelsToTry "" := by
    intro hk
    unfold generate_response
    rw [if_neg hk, if_neg hns]
  refine ⟨?_, ?_, ?_⟩
  · by_cases hk : k = ""
    · subst hk
      simp [generate_response, exceptFails]
    · rw [hgen hk, tryModels_fails_iff]
      simp [hk]
  · intro t ts hk hflash
    rw [hgen hk]
    show tryModels net ("gemini-1.5-flash" :: ["gemini-1.5-pro"]) "" = .ok t.trim
    simp [tryModels, hflash]
  · intro t ts hk hfa hpro
    rw [hgen hk]
    show tryModels net ("gemini-1.5-flash" :: ["gemini-1.5-pro"]) "" = .ok t.trim
    cases hflash : net "gemini-1.5-flash" with
    | fail e => simp [tryModels, hflash, hpro]
    | response s cands =>
      rw [hflash] at hfa
      by_cases hs : s = 200
      · subst hs
        cases cands with
        | nil => simp [tryModels, hflash, hpro]
        | cons a as => simp [producesAnswer] at hfa
      · simp [tryModels, hflash, hs, hpro]

/-- Witness for the amended C3 at a concrete credential, payload and network. -/
theorem c3_witness :
    (exceptFails (generate_response "key" c3Payload c3WitnessNet) = true ↔
        ("key" = "" ∨ ∀ m ∈ modelsToTry, producesAnswer (c3WitnessNet m) = false))
      ∧ (∀ t ts, "key" ≠ "" → c3WitnessNet "gemini-1.5-flash" = .response 200 (t :: ts) →
          generate_response "key" c3Payload c3WitnessNet = .ok t.trim)
      ∧ (∀ t ts, "key" ≠ "" → producesAnswer (c3WitnessNet "gemini-1.5-flash") = false →
          c3WitnessNet "gemini-1.5-pro" = .response 200 (t :: ts) →
          generate_response "key" c3Payload c3WitnessNet = .ok t.trim) :=
  c3_remote_failure_characterization "key" c3Payload c3WitnessNet (by decide)

/-- Claim C1: whenever the composed payload reaches the Remote Reasoner and
the reasoner raises any exception (missing credential, all candidates
exhausted, anything), the gateway invokes the Local Fallback Responder and
the caller still receives a normal-shaped envelope whose mode tag is
"local" (the fallback output being overridden by the canned upload message
exactly when no vision context is pinned); when the remote path succeeds the
mode tag is "hybrid". -/
theorem c1_remote_failure_falls_back_local
    (req : ChatRequest) (o : Oracles) (st st1 : Store) (p : PromptData)
    (hsr : storeAfterRefresh req o st = .ok st1)
    (hcp : construct_prompt (decisionVision req o st1) (decisionHistory req o st1)
        (cleanQueryOf req) (some req.mode) = .payload p) :
    ∃ env st', chat_endpoint req o st = .ok (env, st')
      ∧ (exceptFails (generate_response o.apiKey p o.net) = true →
          env.response.mode = "local"
            ∧ env.response.text =
                (if (decisionVision req o st1).isEmpty then "Please upload an image to begin."
                 else generate_local_reply (cleanQueryOf req) (decisionVision req o st1)
                   req.mode))
      ∧ (∀ r, generate_response o.apiKey p o.net = .ok r →
          env.response.mode = "hybrid") := by
  refine ⟨envelopeFor req o st1, storeAfterTurn req o st1, ?_, ?_, ?_⟩
  · unfold chat_endpoint
    rw [hsr]
  · intro hfail
    cases hg : generate_response o.apiKey p o.net with
    | ok r =>
      rw [hg] at hfail
      simp [exceptFails] at hfail
    | error e =>
      have hdec : decisionOf req o st1 =
          (if (decisionVision req o st1).isEmpty then "Please upload an image to begin."
           else generate_local_reply (cleanQueryOf req) (decisionVision req o st1) req.mode,
           true) := by
        unfold decisionOf gatewayDecide
        rw [hcp]
        simp [remoteOrFallback, hg]
      constructor
      · show (if (decisionOf req o st1).2 then "local" else "hybrid") = "local"
        rw [hdec]
        rfl
      · show (decisionOf req o st1).1 = _
        rw [hdec]
  · intro r hg
    have hdec2 : (decisionOf req o st1).2 = false := by
      unfold decisionOf gatewayDecide
      rw [hcp]
      simp [remoteOrFallback, hg]
    show (if (decisionOf req o st1).2 then "local" else "hybrid") = "hybrid"
    rw [hdec2]
    rfl

/-- Witness for C1: a concrete degraded request completes with mode `local`. -/
theorem c1_witness :
    ∃ env st', chat_endpoint c1Req noopOracles c1Store = .ok (env, st')
      ∧ env.response.mode = "local" := by
  have hip : (construct_prompt (decisionVision c1Req noopOracles c1Store)
      (decisionHistory c1Req noopOracles c1Store) (cleanQueryOf c1Req)
      (some c1Req.mode)).isPayload = true := rfl
  cases hcp : construct_prompt (decisionVision c1Req noopOracles c1Store)
      (decisionHistory c1Req noopOracles c1Store) (cleanQueryOf c1Req)
      (some c1Req.mode) with
  | selectMode => rw [hcp] at hip; cases hip
  | uploadImage => rw [hcp] at hip; cases hip
  | payload p =>
    obtain ⟨env, st', hok, hfail, _⟩ :=
      c1_remote_failure_falls_back_local c1Req noopOracles c1Store c1Store p rfl hcp
    exact ⟨env, st', hok, (hfail rfl).1⟩

/-- Counterexample to claim C4 as stated: a remote failure mid-conversation
(the session holds prior turns and a pinned vision context) produces a
response text EQUAL to the bare Local Fallback reply — nothing is prefixed,
because the code has no degradation-notice mechanism at all. -/
theorem c4_counterexample :
    decisionHistory c4Req noopOracles c4Store ≠ []
      ∧ (decisionVision c4Req noopOracles c4Store).isEmpty = false
      ∧ chat_endpoint c4Req noopOracles c4Store
          = .ok (envelopeFor c4Req noopOracles c4Store,
                 storeAfterTurn c4Req noopOracles c4Store)
      ∧ (envelopeFor c4Req noopOracles c4Store).response.mode = "local"
      ∧ (envelopeFor c4Req noopOracles c4Store).response.text
          = generate_local_reply (cleanQueryOf c4Req) carVision "standard" := by
  refine ⟨by decide, rfl, rfl, rfl, rfl⟩

/-- Amended C4: when remote reasoning fails mid-conversation (vision context
pinned), the gateway returns the Local Fallback Responder's reply completely
unchanged — no degradation notice exists in the code, so none is prefixed
and a fortiori none can repeat across consecutive degraded turns — and the
turn is tagged local. -/
theorem c4_no_notice_on_degraded_turn
    (req : ChatRequest) (o : Oracles) (st st1 : Store) (env : Envelope) (st' : Store)
    (p : PromptData)
    (hsr : storeAfterRefresh req o st = .ok st1)
    (hok : chat_endpoint req o st = .ok (env, st'))
    (hcp : construct_prompt (decisionVision req o st1) (decisionHistory req o st1)
        (cleanQueryOf req) (some req.mode) = .payload p)
    (hfail : exceptFails (generate_response o.apiKey p o.net) = true)
    (hpv : (decisionVision req o st1).isEmpty = false) :
    env.response.text
        = generate_local_reply (cleanQueryOf req) (decisionVision req o st1) req.mode
      ∧ env.response.mode = "local" := by
  obtain ⟨st2, hsr2, henv, hst⟩ := chat_endpoint_ok_iff.mp hok
  rw [hsr] at hsr2
  injection hsr2 with h12
  subst h12
  subst henv
  have hdec : decisionOf req o st1 =
      (generate_local_reply (cleanQueryOf req) (decisionVision req o st1) req.mode,
       true) := by
    unfold decisionOf gatewayDecide
    rw [hcp]
    cases hg : generate_response o.apiKey p o.net with
    | ok r =>
      rw [hg] at hfail
      simp [exceptFails] at hfail
    | error e => simp [remoteOrFallback, hg, hpv]
  constructor
  · show (decisionOf req o st1).1 = _
    rw [hdec]
  · show (if (decisionOf req o st1).2 then "local" else "hybrid") = "local"
    rw [hdec]
    rfl

/-- Witness for the amended C4 at the concrete mid-conversation request. -/
theorem c4_witness :
    (envelopeFor c4Req noopOracles c4Store).response.text
        = generate_local_reply (cleanQueryOf c4Req)
            (decisionVision c4Req noopOracles c4Store) c4Req.mode
      ∧ (envelopeFor c4Req noopOracles c4Store).response.mode = "local" := by
  have hip : (construct_prompt (decisionVision c4Req noopOracles c4Store)
      (decisionHistory c4Req noopOracles c4Store) (cleanQueryOf c4Req)
      (some c4Req.mode)).isPayload = true := rfl
  cases hcp : construct_prompt (decisionVision c4Req noopOracles c4Store)
      (decisionHistory c4Req noopOracles c4Store) (cleanQueryOf c4Req)
      (some c4Req.mode) with
  | selectMode => rw [hcp] at hip; cases hip
  | uploadImage => rw [hcp] at hip; cases hip
  | payload p =>
    exact c4_no_notice_on_degraded_turn c4Req noopOracles c4Store c4Store
      (envelopeFor c4Req noopOracles c4Store) (storeAfterTurn c4Req noopOracles c4Store)
      p rfl rfl hcp rfl rfl

/-- Claim C7: an uploaded image with a disallowed media type, a size above the
10MB ceiling, or empty content makes the request fail with an explicit
image-validation error (a hard failure, distinct from degradation); and
image-intake faults are the only faults the gateway ever surfaces — every
endpoint error originates in the image-intake stage, and a request carrying
no upload and no preview always completes with a normal envelope whatever
the remote, vision or memory state. -/
theorem c7_validation_only_explicit_failures
    (req : ChatRequest) (o : Oracles) (st : Store) (f : UploadImage)
    (himg : req.image = some f)
    (hbad : ¬ ALLOWED_IMAGE_TYPES.contains f.content_type
      ∨ f.data.length > MAX_FILE_SIZE ∨ f.data.length = 0) :
    (∃ d, chat_endpoint req o st = .error (.validationError 400 d))
      ∧ (∀ (req2 : ChatRequest) (o2 : Oracles) (st2 : Store) (fl : Fault),
          chat_endpoint req2 o2 st2 = .error fl →
          storeAfterRefresh req2 o2 st2 = .error fl)
      ∧ (∀ (req2 : ChatRequest) (o2 : Oracles) (st2 : Store),
          req2.image = none → req2.image_preview = none →
          ∃ env st', chat_endpoint req2 o2 st2 = .ok (env, st')) := by
  have hval : ∃ d, validate_image f = .error (.validationError 400 d) := by
    unfold validate_image
    by_cases h1 : ¬ ALLOWED_IMAGE_TYPES.contains f.content_type
    · exact ⟨_, by rw [if_pos h1]⟩
    · by_cases h2 : f.data.length > MAX_FILE_SIZE
      · exact ⟨_, by rw [if_neg h1, if_pos h2]⟩
      · have h3 : f.data.length = 0 := by
          rcases hbad with h | h | h
          · exact absurd h h1
          · exact absurd h h2
          · exact h
        exact ⟨_, by rw [if_neg h1, if_neg h2, if_pos h3]⟩
  obtain ⟨d, hd⟩ := hval
  refine ⟨⟨d, ?_⟩, ?_, ?_⟩
  · have hab : activeBytes req o = .error (.validationError 400 d) := by
      simp only [activeBytes, himg, hd]
      rfl
    have hsr : storeAfterRefresh req o st = .error (.validationError 400 d) := by
      simp [storeAfterRefresh, hab]
    simp [chat_endpoint, hsr]
  · intro req2 o2 st2 fl hend
    cases hsr : storeAfterRefresh req2 o2 st2 with
    | error f' =>
      simp only [chat_endpoint, hsr] at hend
      injection hend with h1
      rw [h1]
    | ok st1 => simp [chat_endpoint, hsr] at hend
  · intro req2 o2 st2 h1 h2
    have hab : activeBytes req2 o2 = .ok none := by
      simp [activeBytes, h1, h2]
    have hsr : storeAfterRefresh req2 o2 st2 = .ok st2 := by
      simp [storeAfterRefresh, hab]
    exact ⟨envelopeFor req2 o2 st2, storeAfterTurn req2 o2 st2, by simp [chat_endpoint, hsr]⟩

/-- Witness for C7 at a concrete empty-file upload. -/
theorem c7_witness :
    (∃ d, chat_endpoint badUploadReq noopOracles emptyStore
        = .error (.validationError 400 d))
      ∧ (∀ (req2 : ChatRequest) (o2 : Oracles) (st2 : Store) (fl : Fault),
          chat_endpoint req2 o2 st2 = .error fl →
          storeAfterRefresh req2 o2 st2 = .error fl)
      ∧ (∀ (req2 : ChatRequest) (o2 : Oracles) (st2 : Store),
          req2.image = none → req2.image_preview = none →
          ∃ env st', chat_endpoint req2 o2 st2 = .ok (env, st')) :=
  c7_validation_only_explicit_failures badUploadReq noopOracles emptyStore
    { content_type := "image/jpeg", data := [] } rfl (Or.inr (Or.inr rfl))

theorem chat_endpoint_ok_appends
    (req : ChatRequest) (o : Oracles) (st : Store) (env : Envelope) (st' : Store)
    (hok : chat_endpoint req o st = .ok (env, st')) :
    (get_context st' (sessionIdOf req o)).conversation_history =
      (get_context st (sessionIdOf req o)).conversation_history
        ++ [⟨"user", cleanQueryOf req⟩, ⟨"assistant", env.response.text⟩] := by
  obtain ⟨st1, hsr, henv, hst⟩ := chat_endpoint_ok_iff.mp hok
  subst henv
  subst hst
  show (get_context (add_interaction st1 (sessionIdOf req o) (cleanQueryOf req)
      (decisionOf req o st1).1) (sessionIdOf req o)).conversation_history = _
  rw [add_interaction_history]
  rw [storeAfterRefresh_history hsr]
  rfl

theorem runChat_session_invariant (sid : String) :
    ∀ (reqs : List (ChatRequest × Oracles)) (st : Store),
      (∀ ro ∈ reqs, sessionIdOf ro.1 ro.2 = sid) →
      (get_context (runChat reqs st).1 sid).conversation_history.length
          = (get_context st sid).conversation_history.length + 2 * (runChat reqs st).2
        ∧ (alternatingUA (get_context st sid).conversation_history = true →
            alternatingUA (get_context (runChat reqs st).1 sid).conversation_history = true)
  | [], st, _ => by simp [runChat]
  | (req, o) :: rest, st, hsid => by
    have hsid0 : sessionIdOf req o = sid := hsid (req, o) (List.mem_cons_self ..)
    have hrest : ∀ ro ∈ rest, sessionIdOf ro.1 ro.2 = sid :=
      fun ro hro => hsid ro (List.mem_cons_of_mem _ hro)
    cases hend : chat_endpoint req o st with
    | error f =>
      simp only [runChat, hend]
      exact runChat_session_invariant sid rest st hrest
    | ok pr =>
      obtain ⟨env, st'⟩ := pr
      have happ := chat_endpoint_ok_appends req o st env st' hend
      rw [hsid0] at happ
      simp only [runChat, hend]
      obtain ⟨ihlen, ihalt⟩ := runChat_session_invariant sid rest st' hrest
      constructor
      · rw [ihlen, happ]
        simp only [List.length_append, List.length_cons, List.length_nil]
        omega
      · intro halt
        apply ihalt
        rw [happ]
        exact alternatingUA_append_pair _ _ _ halt

/-- Claim C2: every completed request appends exactly one (user query,
response text) pair to its session history — unconditionally, whether the
text came from the remote path, the local fallback or a canned sentinel —
and a session driven from the empty store through any request sequence holds
exactly 2N history entries after its N completed turns, strictly alternating
user/assistant in submission order. -/
theorem c2_history_two_entries_per_turn
    (sid : String) (reqs : List (ChatRequest × Oracles))
    (hsid : ∀ ro ∈ reqs, sessionIdOf ro.1 ro.2 = sid) :
    (∀ (req : ChatRequest) (o : Oracles) (st : Store) (env : Envelope) (st' : Store),
        chat_endpoint req o st = .ok (env, st') →
        (get_context st' (sessionIdOf req o)).conversation_history =
          (get_context st (sessionIdOf req o)).conversation_history
            ++ [⟨"user", cleanQueryOf req⟩, ⟨"assistant", env.response.text⟩])
      ∧ (get_context (runChat reqs emptyStore).1 sid).conversation_history.length
          = 2 * (runChat reqs emptyStore).2
      ∧ alternatingUA (get_context (runChat reqs emptyStore).1 sid).conversation_history
          = true := by
  obtain ⟨hlen, halt⟩ := runChat_session_invariant sid reqs emptyStore hsid
  refine ⟨chat_endpoint_ok_appends, ?_, halt rfl⟩
  rw [hlen]
  simp [get_context, emptyStore, emptySession]

/-- Witness for C2 at a concrete two-request session. -/
theorem c2_witness :
    (get_context (runChat c2Reqs emptyStore).1 "s2").conversation_history.length
        = 2 * (runChat c2Reqs emptyStore).2
      ∧ alternatingUA
          (get_context (runChat c2Reqs emptyStore).1 "s2").conversation_history = true :=
  ⟨(c2_history_two_entries_per_turn "s2" c2Reqs (by decide)).2.1,
   (c2_history_two_entries_per_turn "s2" c2Reqs (by decide)).2.2⟩
